import Mathlib

/-!
Shallow embedding of the rule-definition core of forseti-security
(`google/cloud/security/scanner/audit/rules.py`), together with a
spec-modelled fragment of `BaseRulesEngine` (whose module is not part of
the visible source slice; only its test is).

Python exceptions are modelled with `Except`; Python strings with `String`;
Python's hash of a non-negative int with reduction modulo the Mersenne
prime 2^61 - 1 (the documented CPython numeric-hash modulus on 64-bit
platforms).
-/

namespace ForsetiAudit

/-- Exception classes of `google.cloud.security.scanner.audit.errors`.
The errors module itself is outside the visible slice; these are the two
exception classes referenced by `rules.py` and by the engine/rules tests,
which treat them as distinct classes (`assertRaises` on each specifically). -/
inductive AuditError where
  | invalidRulesSchemaError (msg : String)
  | invalidRuleDefinitionError (msg : String)
deriving DecidableEq, Repr

/-- True exactly when the error is an `InvalidRuleDefinitionError`. -/
def AuditError.isRuleDefinitionError : AuditError → Bool
  | .invalidRuleDefinitionError _ => true
  | .invalidRulesSchemaError _ => false

/-- Whether a fallible computation raised `InvalidRuleDefinitionError`. -/
def failsWithRuleDefinitionError {α : Type} : Except AuditError α → Bool
  | .error e => e.isRuleDefinitionError
  | .ok _ => false

/-- Modelled from the spec: an identity pattern `(member_type, member_name,
member_domain)` (spec section 3); the IAM-policy module carrying the concrete
class is not in the visible slice. Claims about `Rule` treat bindings
opaquely, so only structural equality of this type matters here. -/
structure IamPolicyMember where
  member_type : String
  member_name : String
  member_domain : String
deriving DecidableEq, Repr

/-- Modelled from the spec: a rule binding `(role, identities)` (spec
section 3); the IAM-policy module carrying the concrete class is not in the
visible slice. -/
structure IamPolicyBinding where
  role : String
  members : List IamPolicyMember
deriving DecidableEq, Repr

namespace RuleAppliesTo

/-- `RuleAppliesTo.SELF` -/
def SELF : String := "self"

/-- `RuleAppliesTo.CHILDREN` -/
def CHILDREN : String := "children"

/-- `RuleAppliesTo.SELF_AND_CHILDREN` -/
def SELF_AND_CHILDREN : String := "self_and_children"

/-- `RuleAppliesTo.apply_types` (a frozenset; membership is all that is
used, so a list models it). -/
def apply_types : List String := [SELF, CHILDREN, SELF_AND_CHILDREN]

/-- `RuleAppliesTo.verify`: raises `InvalidRulesSchemaError` when
`applies_to` is not in `apply_types`, otherwise returns it unchanged.
`none` models Python `None` (formatted as `None` in the message). -/
def verify (applies_to : Option String) : Except AuditError String :=
  match applies_to with
  | some a =>
      if a ∈ apply_types then .ok a
      else .error (.invalidRulesSchemaError ("Invalid applies_to: " ++ a))
  | none => .error (.invalidRulesSchemaError "Invalid applies_to: None")

end RuleAppliesTo

namespace RuleMode

/-- `RuleMode.WHITELIST` -/
def WHITELIST : String := "whitelist"

/-- `RuleMode.BLACKLIST` -/
def BLACKLIST : String := "blacklist"

/-- `RuleMode.REQUIRED` -/
def REQUIRED : String := "required"

/-- `RuleMode.modes` (a frozenset; membership is all that is used, so a
list models it). -/
def modes : List String := [WHITELIST, BLACKLIST, REQUIRED]

/-- `RuleMode.verify`: raises `InvalidRulesSchemaError` when `mode` is not
in `modes`, otherwise returns it unchanged. `none` models Python `None`
(the default of `Rule.__init__`, formatted as `None` in the message). -/
def verify (mode : Option String) : Except AuditError String :=
  match mode with
  | some m =>
      if m ∈ modes then .ok m
      else .error (.invalidRulesSchemaError ("Invalid rule mode: " ++ m))
  | none => .error (.invalidRulesSchemaError "Invalid rule mode: None")

end RuleMode

/-- The fields a constructed `Rule` object carries: exactly those assigned
in `Rule.__init__` (`rule_name`, `rule_index`, `bindings`, `mode`).
`rule_index` is a non-negative integer (the loader assigns it in file order
starting at 0). -/
structure Rule where
  rule_name : String
  rule_index : Nat
  bindings : List IamPolicyBinding
  mode : String
deriving DecidableEq, Repr

/-- `Rule.__init__(rule_name, rule_index, bindings, mode=None)`: stores the
three data fields and stores `RuleMode.verify(mode)` as the mode; the
verification failure propagates out of construction. There is no
`applies_to` parameter. -/
def Rule.init (rule_name : String) (rule_index : Nat)
    (bindings : List IamPolicyBinding) (mode : Option String) :
    Except AuditError Rule :=
  (RuleMode.verify mode).map fun m =>
    { rule_name := rule_name, rule_index := rule_index,
      bindings := bindings, mode := m }

/-- `Rule.__eq__`: field-wise comparison of `rule_name`, `rule_index`,
`bindings` and `mode` (the `isinstance` guard is vacuous here since both
arguments are Rules). -/
def Rule.eq (r1 r2 : Rule) : Bool :=
  r1.rule_name == r2.rule_name && r1.rule_index == r2.rule_index &&
  r1.bindings == r2.bindings && r1.mode == r2.mode

/-- `Rule.__ne__`: `not self == other`. -/
def Rule.ne (r1 r2 : Rule) : Bool := !(Rule.eq r1 r2)

/-- CPython's hash modulus for numeric types on 64-bit platforms
(`sys.hash_info.modulus`), the Mersenne prime 2^61 - 1. -/
def pyHashModulus : Nat := 2 ^ 61 - 1

/-- CPython `hash` of a non-negative `int`: reduction modulo 2^61 - 1. -/
def pyIntHash (n : Nat) : Nat := n % pyHashModulus

/-- `Rule.__hash__`: `hash(self.rule_index)`. -/
def Rule.hash (r : Rule) : Nat := pyIntHash r.rule_index

/-- The `RuleViolation` namedtuple: fields in the declared order
`(resource_type, resource_id, rule_name, rule_index, violation_type, role,
members)`. -/
structure RuleViolation where
  resource_type : String
  resource_id : String
  rule_name : String
  rule_index : Nat
  violation_type : String
  role : String
  members : List IamPolicyMember
deriving DecidableEq, Repr

/-- The module-level `VIOLATION_TYPE` dict, modelled as lookup. -/
def VIOLATION_TYPE (key : String) : Option String :=
  if key = "whitelist" then some "ADDED"
  else if key = "blacklist" then some "ADDED"
  else if key = "required" then some "REMOVED"
  else if key = "UNSPECIFIED" then some "UNSPECIFIED"
  else none

/-- Python `str.strip()` with no argument: remove leading and trailing
whitespace characters. -/
def pyStrip (s : String) : String :=
  ⟨((s.data.dropWhile Char.isWhitespace).reverse.dropWhile
      Char.isWhitespace).reverse⟩

/-- The state a constructed `BaseRulesEngine` carries that the claims
mention: the stored rules path. -/
structure BaseRulesEngine where
  full_rules_path : String
deriving DecidableEq, Repr

/-- Modelled from the spec: `BaseRulesEngine.__init__` lives in
`base_rules_engine.py`, which is not in the visible source slice (only its
test is). Spec section 4.5: construction requires a non-empty rule source
path and fails with `InvalidRuleDefinitionError` when none is given; the
value is trimmed of surrounding whitespace before use. `none` models the
omitted `rules_file_path=None` default of the test
`test_init_with_no_rules_raises_error`; the empty string is likewise "no
path" (Python falsiness of `''`, and the spec's non-empty requirement). -/
def BaseRulesEngine.init (rules_file_path : Option String) :
    Except AuditError BaseRulesEngine :=
  match rules_file_path with
  | none => .error (.invalidRuleDefinitionError "File path was not specified.")
  | some p =>
      if p = "" then
        .error (.invalidRuleDefinitionError "File path was not specified.")
      else
        .ok { full_rules_path := pyStrip p }

/-- `Rule.__eq__` decides structural equality: all four stored fields are
compared, and those are exactly the fields of a `Rule`. -/
theorem Rule.eq_true_iff (r1 r2 : Rule) : Rule.eq r1 r2 = true ↔ r1 = r2 := by
  obtain ⟨n1, i1, b1, m1⟩ := r1
  obtain ⟨n2, i2, b2, m2⟩ := r2
  simp [Rule.eq, and_assoc]

/-- C1 counterexample: constructing a Rule with mode `superlist` does not
fail with `InvalidRuleDefinitionError` — it fails with
`InvalidRulesSchemaError` (the class `RuleMode.verify` raises). -/
theorem c1_counterexample :
    failsWithRuleDefinitionError (Rule.init "r" 0 [] (some "superlist")) = false ∧
    Rule.init "r" 0 [] (some "superlist") =
      .error (.invalidRulesSchemaError "Invalid rule mode: superlist") := by
  constructor
  · rfl
  · rfl

/-- C1 (amended): constructing a Rule with a mode outside
`whitelist`, `blacklist`, `required` fails with `InvalidRulesSchemaError`;
for every mode in that set, construction succeeds and stores the fields. -/
theorem c1_rule_mode_validation (n : String) (i : Nat)
    (b : List IamPolicyBinding) (m : String) :
    (m ∉ RuleMode.modes →
      Rule.init n i b (some m) =
        .error (.invalidRulesSchemaError ("Invalid rule mode: " ++ m))) ∧
    (m ∈ RuleMode.modes →
      Rule.init n i b (some m) = .ok ⟨n, i, b, m⟩) := by
  constructor
  · intro h
    simp [Rule.init, RuleMode.verify, h, Except.map]
  · intro h
    simp [Rule.init, RuleMode.verify, h, Except.map]

/-- C1 witness: construction succeeds on the concrete mode `whitelist` and
fails on `superlist`. -/
theorem c1_rule_mode_validation_witness :
    Rule.init "r" 0 [] (some "whitelist") = .ok ⟨"r", 0, [], "whitelist"⟩ ∧
    Rule.init "x" 1 [] (some "superlist") =
      .error (.invalidRulesSchemaError "Invalid rule mode: superlist") :=
  ⟨(c1_rule_mode_validation "r" 0 [] "whitelist").2 (by decide),
   (c1_rule_mode_validation "x" 1 [] "superlist").1 (by decide)⟩

/-- C2 counterexample: an invalid `applies_to` value is rejected with
`InvalidRulesSchemaError`, not `InvalidRuleDefinitionError` as the claim
states (and the rejection lives in `RuleAppliesTo.verify`, which
`Rule.__init__` never calls — `Rule.__init__` has no `applies_to`
parameter). -/
theorem c2_counterexample :
    failsWithRuleDefinitionError (RuleAppliesTo.verify (some "invalid")) = false ∧
    RuleAppliesTo.verify (some "invalid") =
      .error (.invalidRulesSchemaError "Invalid applies_to: invalid") := by
  constructor
  · rfl
  · rfl

/-- C2 (amended): `RuleAppliesTo.verify` rejects a value outside
`self`, `children`, `self_and_children` with `InvalidRulesSchemaError` and
returns members of the set unchanged; Rule construction takes no
`applies_to` argument, so its success depends only on mode validation. -/
theorem c2_applies_to_validation (a n : String) (i : Nat)
    (b : List IamPolicyBinding) (m : Option String) :
    (a ∉ RuleAppliesTo.apply_types →
      RuleAppliesTo.verify (some a) =
        .error (.invalidRulesSchemaError ("Invalid applies_to: " ++ a))) ∧
    (a ∈ RuleAppliesTo.apply_types → RuleAppliesTo.verify (some a) = .ok a) ∧
    (Rule.init n i b m).isOk = (RuleMode.verify m).isOk := by
  refine ⟨?_, ?_, ?_⟩
  · intro h
    simp [RuleAppliesTo.verify, h]
  · intro h
    simp [RuleAppliesTo.verify, h]
  · cases hv : RuleMode.verify m <;>
      simp [Rule.init, hv, Except.map, Except.isOk, Except.toBool]

/-- C2 witness: `verify` accepts the concrete value `self` and rejects
`invalid`. -/
theorem c2_applies_to_validation_witness :
    RuleAppliesTo.verify (some "self") = .ok "self" ∧
    RuleAppliesTo.verify (some "invalid") =
      .error (.invalidRulesSchemaError "Invalid applies_to: invalid") :=
  ⟨(c2_applies_to_validation "self" "r" 0 [] none).2.1 (by decide),
   (c2_applies_to_validation "invalid" "r" 0 [] none).1 (by decide)⟩

/-- C3: two Rules are `__eq__`-equal iff all four declared fields
(`rule_name`, `rule_index`, `bindings`, `mode`) coincide — equivalently,
iff the values are structurally equal — and `__ne__` is the exact negation
of `__eq__`. -/
theorem c3_rule_eq_iff_fields (r1 r2 : Rule) :
    (Rule.eq r1 r2 = true ↔
      (r1.rule_name = r2.rule_name ∧ r1.rule_index = r2.rule_index ∧
        r1.bindings = r2.bindings ∧ r1.mode = r2.mode)) ∧
    (Rule.eq r1 r2 = true ↔ r1 = r2) ∧
    (Rule.ne r1 r2 = true ↔ ¬ Rule.eq r1 r2 = true) := by
  refine ⟨?_, Rule.eq_true_iff r1 r2, ?_⟩
  · obtain ⟨n1, i1, b1, m1⟩ := r1
    obtain ⟨n2, i2, b2, m2⟩ := r2
    simp [Rule.eq, and_assoc]
  · simp [Rule.ne]

/-- C3 witness: equality evaluated at concrete rules. -/
theorem c3_rule_eq_iff_fields_witness :
    Rule.eq ⟨"r", 0, [], "whitelist"⟩ ⟨"r", 0, [], "whitelist"⟩ = true :=
  (c3_rule_eq_iff_fields ⟨"r", 0, [], "whitelist"⟩
      ⟨"r", 0, [], "whitelist"⟩).2.1.mpr rfl

/-- C4 counterexample: two Rules with identical other fields and different
`rule_index` (0 and 2^61 - 1) are unequal but hash identically, because
Python hashes an int by reduction modulo the Mersenne prime 2^61 - 1. -/
theorem c4_counterexample :
    (0 : Nat) ≠ 2 ^ 61 - 1 ∧
    Rule.eq ⟨"r", 0, [], "whitelist"⟩ ⟨"r", 2 ^ 61 - 1, [], "whitelist"⟩ = false ∧
    Rule.hash ⟨"r", 0, [], "whitelist"⟩ =
      Rule.hash ⟨"r", 2 ^ 61 - 1, [], "whitelist"⟩ := by
  refine ⟨by norm_num, by decide, by decide⟩

/-- C4 (amended): a Rule's hash is `pyIntHash` of its index alone; rules
with different index are never `__eq__`-equal; they hash differently
whenever their indices are incongruent modulo 2^61 - 1 (in particular for
distinct indices below 2^61 - 1); rules with the same index always share a
hash but are unequal as soon as any field differs. -/
theorem c4_hash_from_index (r1 r2 : Rule) :
    Rule.hash r1 = pyIntHash r1.rule_index ∧
    (r1.rule_index ≠ r2.rule_index → Rule.eq r1 r2 = false) ∧
    (r1.rule_index % pyHashModulus ≠ r2.rule_index % pyHashModulus →
      Rule.hash r1 ≠ Rule.hash r2) ∧
    (r1.rule_index = r2.rule_index → Rule.hash r1 = Rule.hash r2) ∧
    (r1.rule_index = r2.rule_index → r1 ≠ r2 → Rule.eq r1 r2 = false) := by
  refine ⟨rfl, ?_, ?_, ?_, ?_⟩
  · intro hi
    cases h : Rule.eq r1 r2 with
    | false => rfl
    | true =>
        exact absurd (congrArg Rule.rule_index ((Rule.eq_true_iff r1 r2).mp h)) hi
  · intro h hc
    exact h hc
  · intro h
    simp [Rule.hash, pyIntHash, h]
  · intro _ hne
    cases h : Rule.eq r1 r2 with
    | false => rfl
    | true => exact absurd ((Rule.eq_true_iff r1 r2).mp h) hne

/-- C4 witness: concrete rules with equal index but different names share a
hash yet are unequal, and rules with distinct small indices hash
differently. -/
theorem c4_hash_from_index_witness :
    Rule.eq ⟨"a", 1, [], "whitelist"⟩ ⟨"b", 1, [], "whitelist"⟩ = false ∧
    Rule.hash ⟨"a", 1, [], "whitelist"⟩ = Rule.hash ⟨"b", 1, [], "whitelist"⟩ ∧
    Rule.hash ⟨"a", 1, [], "whitelist"⟩ ≠ Rule.hash ⟨"a", 2, [], "whitelist"⟩ :=
  ⟨(c4_hash_from_index ⟨"a", 1, [], "whitelist"⟩ ⟨"b", 1, [], "whitelist"⟩).2.2.2.2
      rfl (by decide),
   (c4_hash_from_index ⟨"a", 1, [], "whitelist"⟩ ⟨"b", 1, [], "whitelist"⟩).2.2.2.1 rfl,
   (c4_hash_from_index ⟨"a", 1, [], "whitelist"⟩ ⟨"a", 2, [], "whitelist"⟩).2.2.1
      (by decide)⟩

/-- C5: the `VIOLATION_TYPE` map sends `whitelist` and `blacklist` to
`ADDED` and `required` to `REMOVED`; every valid mode has a defined
violation type; the only key outside the mode set is `UNSPECIFIED`, and
every defined value is one of `ADDED`, `REMOVED`, `UNSPECIFIED`. -/
theorem c5_violation_type_map (m k v : String) :
    VIOLATION_TYPE "whitelist" = some "ADDED" ∧
    VIOLATION_TYPE "blacklist" = some "ADDED" ∧
    VIOLATION_TYPE "required" = some "REMOVED" ∧
    VIOLATION_TYPE "UNSPECIFIED" = some "UNSPECIFIED" ∧
    (m ∈ RuleMode.modes → (VIOLATION_TYPE m).isSome = true) ∧
    ((VIOLATION_TYPE k).isSome = true ↔ (k ∈ RuleMode.modes ∨ k = "UNSPECIFIED")) ∧
    (VIOLATION_TYPE k = some v →
      (v = "ADDED" ∨ v = "REMOVED" ∨ v = "UNSPECIFIED")) := by
  refine ⟨rfl, rfl, rfl, rfl, ?_, ?_, ?_⟩
  · intro h
    simp only [RuleMode.modes, RuleMode.WHITELIST, RuleMode.BLACKLIST,
      RuleMode.REQUIRED, List.mem_cons, List.not_mem_nil, or_false] at h
    rcases h with h | h | h <;> subst h <;> rfl
  · constructor
    · intro hs
      unfold VIOLATION_TYPE at hs
      split_ifs at hs with h1 h2 h3 h4
      · exact Or.inl (by subst h1; decide)
      · exact Or.inl (by subst h2; decide)
      · exact Or.inl (by subst h3; decide)
      · exact Or.inr h4
      · simp at hs
    · intro h
      rcases h with hm | hu
      · simp only [RuleMode.modes, RuleMode.WHITELIST, RuleMode.BLACKLIST,
          RuleMode.REQUIRED, List.mem_cons, List.not_mem_nil, or_false] at hm
        rcases hm with h | h | h <;> subst h <;> rfl
      · subst hu; rfl
  · intro hv
    unfold VIOLATION_TYPE at hv
    split_ifs at hv
    · exact Or.inl (Option.some.inj hv).symm
    · exact Or.inl (Option.some.inj hv).symm
    · exact Or.inr (Or.inl (Option.some.inj hv).symm)
    · exact Or.inr (Or.inr (Option.some.inj hv).symm)

/-- C5 witness: the map is defined at the concrete mode `whitelist` and its
value there is among the three violation types. -/
theorem c5_violation_type_map_witness :
    (VIOLATION_TYPE "whitelist").isSome = true ∧
    ("ADDED" = "ADDED" ∨ "ADDED" = "REMOVED" ∨ "ADDED" = "UNSPECIFIED") :=
  ⟨(c5_violation_type_map "whitelist" "whitelist" "ADDED").2.2.2.2.1 (by decide),
   (c5_violation_type_map "whitelist" "whitelist" "ADDED").2.2.2.2.2.2 (by decide)⟩

/-- C6: a `RuleViolation` is exactly the record of the seven fields
`(resource_type, resource_id, rule_name, rule_index, violation_type, role,
members)` in that positional order: the constructor's positional arguments
are recovered by the named accessors, and two violations are equal iff all
seven fields agree. -/
theorem c6_rule_violation_shape (rt ri rn : String) (rx : Nat)
    (vt ro : String) (ms : List IamPolicyMember) (v1 v2 : RuleViolation) :
    (RuleViolation.mk rt ri rn rx vt ro ms).resource_type = rt ∧
    (RuleViolation.mk rt ri rn rx vt ro ms).resource_id = ri ∧
    (RuleViolation.mk rt ri rn rx vt ro ms).rule_name = rn ∧
    (RuleViolation.mk rt ri rn rx vt ro ms).rule_index = rx ∧
    (RuleViolation.mk rt ri rn rx vt ro ms).violation_type = vt ∧
    (RuleViolation.mk rt ri rn rx vt ro ms).role = ro ∧
    (RuleViolation.mk rt ri rn rx vt ro ms).members = ms ∧
    (v1 = v2 ↔
      (v1.resource_type = v2.resource_type ∧ v1.resource_id = v2.resource_id ∧
        v1.rule_name = v2.rule_name ∧ v1.rule_index = v2.rule_index ∧
        v1.violation_type = v2.violation_type ∧ v1.role = v2.role ∧
        v1.members = v2.members)) := by
  refine ⟨rfl, rfl, rfl, rfl, rfl, rfl, rfl, ?_⟩
  obtain ⟨a1, a2, a3, a4, a5, a6, a7⟩ := v1
  obtain ⟨b1, b2, b3, b4, b5, b6, b7⟩ := v2
  simp [and_assoc]

/-- C6 witness: accessor recovery evaluated at a concrete violation. -/
theorem c6_rule_violation_shape_witness :
    (RuleViolation.mk "project" "proj-1" "R0" 0 "ADDED" "owner" []).role =
      "owner" :=
  (c6_rule_violation_shape "project" "proj-1" "R0" 0 "ADDED" "owner" []
      (RuleViolation.mk "project" "proj-1" "R0" 0 "ADDED" "owner" [])
      (RuleViolation.mk "project" "proj-1" "R0" 0 "ADDED" "owner" [])).2.2.2.2.2.1

/-- C7: constructing the engine with no rules path fails with
`InvalidRuleDefinitionError`; with any non-empty path, construction
succeeds. -/
theorem c7_engine_requires_path (p : String) :
    BaseRulesEngine.init none =
      .error (.invalidRuleDefinitionError "File path was not specified.") ∧
    failsWithRuleDefinitionError (BaseRulesEngine.init none) = true ∧
    (p ≠ "" → BaseRulesEngine.init (some p) = .ok ⟨pyStrip p⟩) := by
  refine ⟨rfl, rfl, ?_⟩
  intro h
  simp [BaseRulesEngine.init, h]

/-- C7 witness: construction succeeds on the concrete path
`path/to/rules`. -/
theorem c7_engine_requires_path_witness :
    BaseRulesEngine.init (some "path/to/rules") =
      .ok ⟨pyStrip "path/to/rules"⟩ :=
  (c7_engine_requires_path "path/to/rules").2.2 (by decide)

/-- C8: for every non-empty supplied path, the stored `full_rules_path`
equals the supplied string stripped of surrounding whitespace; a path that
strips to itself is stored unchanged. -/
theorem c8_engine_strips_path (p : String) :
    (p ≠ "" → BaseRulesEngine.init (some p) = .ok ⟨pyStrip p⟩) ∧
    (p ≠ "" → pyStrip p = p → BaseRulesEngine.init (some p) = .ok ⟨p⟩) := by
  constructor
  · intro h
    simp [BaseRulesEngine.init, h]
  · intro h ht
    simp [BaseRulesEngine.init, h, ht]

/-- C8 witness: the padded concrete path from the test is stored stripped,
and the unpadded one unchanged. -/
theorem c8_engine_strips_path_witness :
    BaseRulesEngine.init (some "  path/to/rules   ") = .ok ⟨"path/to/rules"⟩ ∧
    BaseRulesEngine.init (some "path/to/rules") = .ok ⟨"path/to/rules"⟩ := by
  constructor
  · have h := (c8_engine_strips_path "  path/to/rules   ").1 (by decide)
    rw [h]
    rfl
  · exact (c8_engine_strips_path "path/to/rules").2 (by decide) (by rfl)

/-- C9: Rule equality is compatible with the hash — `__eq__`-equal rules
have equal hashes, since equality forces equal indices and the hash
depends only on the index. -/
theorem c9_eq_implies_hash_eq (r1 r2 : Rule) (h : Rule.eq r1 r2 = true) :
    Rule.hash r1 = Rule.hash r2 := by
  rw [(Rule.eq_true_iff r1 r2).mp h]

/-- C9 witness: instantiated at two identical concrete rules. -/
theorem c9_eq_implies_hash_eq_witness :
    Rule.hash ⟨"r", 5, [], "required"⟩ = Rule.hash ⟨"r", 5, [], "required"⟩ :=
  c9_eq_implies_hash_eq ⟨"r", 5, [], "required"⟩ ⟨"r", 5, [], "required"⟩
    (by decide)

/-- C10: `RuleMode.verify` and `RuleAppliesTo.verify` are the identity on
members of their enumerated sets, so composing either with itself agrees
with a single application on valid inputs. -/
theorem c10_verify_identity_on_valid (m a : String) :
    (m ∈ RuleMode.modes → RuleMode.verify (some m) = .ok m) ∧
    (a ∈ RuleAppliesTo.apply_types → RuleAppliesTo.verify (some a) = .ok a) ∧
    (m ∈ RuleMode.modes →
      (RuleMode.verify (some m)).bind (fun x => RuleMode.verify (some x)) =
        RuleMode.verify (some m)) ∧
    (a ∈ RuleAppliesTo.apply_types →
      (RuleAppliesTo.verify (some a)).bind
          (fun x => RuleAppliesTo.verify (some x)) =
        RuleAppliesTo.verify (some a)) := by
  refine ⟨?_, ?_, ?_, ?_⟩ <;> intro h <;>
    simp [RuleMode.verify, RuleAppliesTo.verify, h, Except.bind]

/-- C10 witness: evaluated at the concrete members `blacklist` and
`children`. -/
theorem c10_verify_identity_on_valid_witness :
    RuleMode.verify (some "blacklist") = .ok "blacklist" ∧
    RuleAppliesTo.verify (some "children") = .ok "children" :=
  ⟨(c10_verify_identity_on_valid "blacklist" "children").1 (by decide),
   (c10_verify_identity_on_valid "blacklist" "children").2.1 (by decide)⟩

end ForsetiAudit
